import Mathlib

/-!
Verification of the two Home Assistant integration plugins in this
repository: the Hue remote sensor entities
(homeassistant/components/hue/remote.py) and the PVPC electricity-price
sensor (homeassistant/components/pvpc_hourly_pricing/sensor.py).

Python dictionaries used as lookup tables are embedded as association
lists with List.lookup (dict.get returns None for a missing key, which
is Option.none here).  The entity classes become structures, and the
effectful methods become pure functions returning the updated entity
state together with a list of scheduled host actions.
-/

namespace HueRemote

/-- Vendor constants imported from aiohue.sensors.  Modelled from the
spec: aiohue is an external vendor library whose source is not in the
repository; the spec fixes the ZGP tap-switch code space as the four
codes below and the ZLL codes as button-number * 1000 plus the phase
offset (0 initial press, 1 hold, 2 short released, 3 long released),
as witnessed by the spec example buttonevent 1002 on an RWL model. -/
def ZLL_SWITCH_BUTTON_1_INITIAL_PRESS : Nat := 1000

def ZLL_SWITCH_BUTTON_1_HOLD : Nat := 1001

def ZLL_SWITCH_BUTTON_1_SHORT_RELEASED : Nat := 1002

def ZLL_SWITCH_BUTTON_1_LONG_RELEASED : Nat := 1003

def ZLL_SWITCH_BUTTON_2_INITIAL_PRESS : Nat := 2000

def ZLL_SWITCH_BUTTON_2_HOLD : Nat := 2001

def ZLL_SWITCH_BUTTON_2_SHORT_RELEASED : Nat := 2002

def ZLL_SWITCH_BUTTON_2_LONG_RELEASED : Nat := 2003

def ZLL_SWITCH_BUTTON_3_INITIAL_PRESS : Nat := 3000

def ZLL_SWITCH_BUTTON_3_HOLD : Nat := 3001

def ZLL_SWITCH_BUTTON_3_SHORT_RELEASED : Nat := 3002

def ZLL_SWITCH_BUTTON_3_LONG_RELEASED : Nat := 3003

def ZLL_SWITCH_BUTTON_4_INITIAL_PRESS : Nat := 4000

def ZLL_SWITCH_BUTTON_4_HOLD : Nat := 4001

def ZLL_SWITCH_BUTTON_4_SHORT_RELEASED : Nat := 4002

def ZLL_SWITCH_BUTTON_4_LONG_RELEASED : Nat := 4003

def ZGP_SWITCH_BUTTON_1 : Nat := 34

def ZGP_SWITCH_BUTTON_2 : Nat := 16

def ZGP_SWITCH_BUTTON_3 : Nat := 17

def ZGP_SWITCH_BUTTON_4 : Nat := 18

/-- FOH_BUTTONS dict from remote.py. -/
def FOH_BUTTONS : List (Nat × String) :=
  [(16, "left_upper_press"), (20, "left_upper_release"),
   (17, "left_lower_press"), (21, "left_lower_release"),
   (18, "right_lower_press"), (22, "right_lower_release"),
   (19, "right_upper_press"), (23, "right_upper_release"),
   (100, "double_upper_press"), (101, "double_upper_release"),
   (98, "double_lower_press"), (99, "double_lower_release")]

/-- RWL_BUTTONS dict from remote.py. -/
def RWL_BUTTONS : List (Nat × String) :=
  [(ZLL_SWITCH_BUTTON_1_INITIAL_PRESS, "1_click"),
   (ZLL_SWITCH_BUTTON_2_INITIAL_PRESS, "2_click"),
   (ZLL_SWITCH_BUTTON_3_INITIAL_PRESS, "3_click"),
   (ZLL_SWITCH_BUTTON_4_INITIAL_PRESS, "4_click"),
   (ZLL_SWITCH_BUTTON_1_HOLD, "1_hold"),
   (ZLL_SWITCH_BUTTON_2_HOLD, "2_hold"),
   (ZLL_SWITCH_BUTTON_3_HOLD, "3_hold"),
   (ZLL_SWITCH_BUTTON_4_HOLD, "4_hold"),
   (ZLL_SWITCH_BUTTON_1_SHORT_RELEASED, "1_click_up"),
   (ZLL_SWITCH_BUTTON_2_SHORT_RELEASED, "2_click_up"),
   (ZLL_SWITCH_BUTTON_3_SHORT_RELEASED, "3_click_up"),
   (ZLL_SWITCH_BUTTON_4_SHORT_RELEASED, "4_click_up"),
   (ZLL_SWITCH_BUTTON_1_LONG_RELEASED, "1_hold_up"),
   (ZLL_SWITCH_BUTTON_2_LONG_RELEASED, "2_hold_up"),
   (ZLL_SWITCH_BUTTON_3_LONG_RELEASED, "3_hold_up"),
   (ZLL_SWITCH_BUTTON_4_LONG_RELEASED, "4_hold_up")]

/-- TAP_BUTTONS dict from remote.py. -/
def TAP_BUTTONS : List (Nat × String) :=
  [(ZGP_SWITCH_BUTTON_1, "1_click"),
   (ZGP_SWITCH_BUTTON_2, "2_click"),
   (ZGP_SWITCH_BUTTON_3, "3_click"),
   (ZGP_SWITCH_BUTTON_4, "4_click")]

/-- Z3_BUTTON dict from remote.py. -/
def Z3_BUTTON : List (Nat × String) :=
  [(1000, "initial_press"), (1001, "repeat"),
   (1002, "short_release"), (1003, "long_release")]

/-- Z3_DIAL dict from remote.py. -/
def Z3_DIAL : List (Nat × String) := [(1, "begin"), (2, "end")]

/-- The fields of the vendor (aiohue) sensor object that the remote
entities read: modelid, type, the state dict entries for buttonevent,
rotaryevent, expectedrotation and lastupdated, and the top-level
lastupdated field used by the generic attributes. -/
structure HueSensor where
  modelid : String
  sensorType : String
  buttonevent : Nat
  rotaryevent : Nat
  expectedrotation : Int
  stateLastupdated : String
  lastupdated : String
  deriving Repr, DecidableEq

/-- str.startswith of the source, expressed on the underlying
character list so that concrete model ids evaluate by the kernel. -/
def strStartsWith (s p : String) : Bool :=
  s.data.take p.data.length == p.data

/-- The slice modelid[0:3] of the source, expressed on the underlying
character list. -/
def strTake3 (s : String) : String := String.mk (s.data.take 3)

/-- Python truthiness of `x or "No data"` on an optional string:
None and the empty string fall through to the default. -/
def orNoData (o : Option String) : String :=
  match o with
  | none => "No data"
  | some s => if s.isEmpty then "No data" else s

/-- HueRemoteZLLSwitch.state: RWL-prefixed models use RWL_BUTTONS,
every other ZLL switch model uses Z3_BUTTON. -/
def zllSwitchState (s : HueSensor) : Option String :=
  if strStartsWith s.modelid "RWL" then RWL_BUTTONS.lookup s.buttonevent
  else Z3_BUTTON.lookup s.buttonevent

/-- HueRemoteZGPSwitch.state: FOH-prefixed models use FOH_BUTTONS,
every other ZGP switch model uses TAP_BUTTONS. -/
def zgpSwitchState (s : HueSensor) : Option String :=
  if strStartsWith s.modelid "FOH" then FOH_BUTTONS.lookup s.buttonevent
  else TAP_BUTTONS.lookup s.buttonevent

/-- HueRemoteZLLRelativeRotary.state. -/
def rotaryState (s : HueSensor) : Option String :=
  Z3_DIAL.lookup s.rotaryevent

/-- The last_button_event entry of
HueGenericRemote.device_state_attributes, given the entity's state. -/
def lastButtonEvent (state : Option String) : String := orNoData state

/-- The attributes dict returned by
HueRemoteZLLRelativeRotary.device_state_attributes, restricted to the
fields available on the embedded sensor. -/
structure RotaryAttributes where
  model : String
  dial_state : String
  dial_position : Int
  last_button_event : String
  last_updated : List String
  deriving Repr, DecidableEq

/-- HueRemoteZLLRelativeRotary.device_state_attributes. -/
def rotaryAttributes (s : HueSensor) : RotaryAttributes :=
  { model := s.sensorType
    dial_state := orNoData (rotaryState s)
    dial_position := s.expectedrotation
    last_button_event := orNoData (rotaryState s)
    last_updated := s.stateLastupdated.splitOn "T" }

/-- REMOTE_ICONS dict from remote.py. -/
def REMOTE_ICONS : List (String × String) :=
  [("RWL", "mdi:remote"), ("ROM", "mdi:remote"), ("ZGP", "mdi:remote"),
   ("FOH", "mdi:light-switch"), ("Z3-", "mdi:light-switch")]

/-- HueGenericRemote.icon: looks up the first three characters of the
model id. -/
def icon (s : HueSensor) : Option String :=
  REMOTE_ICONS.lookup (strTake3 s.modelid)

/-- The always-present entries of
HueGenericRemote.device_state_attributes (the battery block is only
added when the sensor has a battery attribute and is outside the
embedded sensor fields). -/
structure GenericAttributes where
  model : String
  last_button_event : String
  last_updated : List String
  deriving Repr, DecidableEq

/-- HueGenericRemote.device_state_attributes, parameterized by the
concrete subclass's state property. -/
def genericAttributes (state : Option String) (s : HueSensor) :
    GenericAttributes :=
  { model := s.sensorType
    last_button_event := orNoData state
    last_updated := s.lastupdated.splitOn "T" }

/-- device_state_attributes of a HueRemoteZLLSwitch entity. -/
def zllAttributes (s : HueSensor) : GenericAttributes :=
  genericAttributes (zllSwitchState s) s

/-- device_state_attributes of a HueRemoteZGPSwitch entity. -/
def zgpAttributes (s : HueSensor) : GenericAttributes :=
  genericAttributes (zgpSwitchState s) s

/-- A button sensor literal with the given model id and buttonevent
code, for concrete test points. -/
def mkButtonSensor (modelid : String) (code : Nat) : HueSensor :=
  { modelid := modelid, sensorType := "", buttonevent := code,
    rotaryevent := 0, expectedrotation := 0, stateLastupdated := "",
    lastupdated := "" }

/-- HueGenericRemote.turn_on: the method body is empty, so the entity
and its wrapped sensor are untouched; the keyword arguments are
ignored. -/
def turn_on (s : HueSensor) (_kwargs : List (String × String)) : HueSensor := s

/-- HueGenericRemote.turn_off: the method body is empty as well. -/
def turn_off (s : HueSensor) (_kwargs : List (String × String)) : HueSensor := s

end HueRemote

namespace Pvpc

/-- The fields of the vendor aiopvpc PVPCData handler that
ElecPriceSensor reads and writes: the availability flags, the
configured timeout (seconds) and the displayed state value.  The
price payload itself is left abstract as the state string. -/
structure PVPCData where
  state_available : Bool
  source_available : Bool
  timeout : Nat
  state : Option String
  deriving Repr, DecidableEq

/-- The ElecPriceSensor entity state: the retry counter, the
initialization flag set at the end of async_added_to_hass, and the
wrapped vendor data handler. -/
structure ElecPriceSensor where
  num_retries : Nat
  init_done : Bool
  pvpc : PVPCData
  deriving Repr, DecidableEq

/-- The host-scheduler effects the sensor methods can produce:
the single vendor fetch call at the top of async_update_prices, a
one-shot retry of async_update_prices after the given delay in
seconds, a one-shot delayed async_update after the given delay,
async_schedule_update_ha_state with its force flag, and the awaited
async_update_ha_state refresh. -/
inductive Action where
  | vendorFetch : Action
  | retryPricesIn (seconds : Nat) : Action
  | delayedUpdateIn (seconds : Nat) : Action
  | scheduleHaState (force : Bool) : Action
  | updateHaState : Action
  deriving Repr, DecidableEq

/-- Whether an action is the one-shot retry of async_update_prices. -/
def Action.isRetry : Action → Bool
  | Action.retryPricesIn _ => true
  | _ => false

/-- ElecPriceSensor.async_update_prices.  The vendor fetch result is
abstracted by fetchOk (whether the returned prices are non-empty);
the function returns the updated entity together with the scheduled
host actions.  The source is followed branch by branch: an empty
result while the source is available increments the retry counter,
giving up (counter above 2) by marking the source unavailable, and
otherwise scheduling one retry after 3 * timeout seconds; an empty
result with the source already unavailable only logs; a non-empty
result resets the counter and, when the source had been unavailable,
marks it available again and schedules a forced state refresh. -/
def async_update_prices (fetchOk : Bool) (e : ElecPriceSensor) :
    ElecPriceSensor × List Action :=
  if !fetchOk && e.pvpc.source_available then
    if e.num_retries + 1 > 2 then
      ({ e with num_retries := e.num_retries + 1,
                pvpc := { e.pvpc with source_available := false } },
       [Action.vendorFetch])
    else
      ({ e with num_retries := e.num_retries + 1 },
       [Action.vendorFetch, Action.retryPricesIn (3 * e.pvpc.timeout)])
  else if !fetchOk then
    (e, [Action.vendorFetch])
  else
    if !e.pvpc.source_available then
      ({ e with num_retries := 0,
                pvpc := { e.pvpc with source_available := true } },
       [Action.vendorFetch, Action.scheduleHaState true])
    else
      ({ e with num_retries := 0 }, [Action.vendorFetch])

/-- ElecPriceSensor.async_update.  Modelled from the spec in one
place: the call self.pvpc_data.process_state_and_attributes(now) is
vendor aiopvpc code not in the repository; per the spec it recomputes
the displayed state and attributes from already-fetched data and
reports whether a valid price exists for the current hour, marking
the displayed state available when it does.  That report is the
hasValidPrice oracle, and the valid branch sets state_available.
Everything else follows the source: before initialization is done the
method returns at once; with no valid price it clears
state_available, schedules a state update, schedules a delayed
async_update after timeout seconds when the source is available, and
then runs async_update_prices inline (fetchOk abstracts that nested
fetch result). -/
def async_update (hasValidPrice fetchOk : Bool) (e : ElecPriceSensor) :
    ElecPriceSensor × List Action :=
  if !e.init_done then (e, [])
  else if hasValidPrice then
    ({ e with pvpc := { e.pvpc with state_available := true } },
     [Action.updateHaState])
  else
    ((async_update_prices fetchOk
        { e with pvpc := { e.pvpc with state_available := false } }).1,
     [Action.scheduleHaState false] ++
       (if e.pvpc.source_available then
         [Action.delayedUpdateIn e.pvpc.timeout] else []) ++
       (async_update_prices fetchOk
         { e with pvpc := { e.pvpc with state_available := false } }).2)

/-- ElecPriceSensor.available: returns the vendor handler's
state_available flag. -/
def available (e : ElecPriceSensor) : Bool := e.pvpc.state_available

/-- Entity states reachable from a freshly constructed sensor
(ElecPriceSensor.init sets the retry counter to 0) under any
interleaving of the two scheduled callbacks with any fetch and
price-validity outcomes, including the init_done flip at the end of
async_added_to_hass. -/
inductive Reachable : ElecPriceSensor → Prop
  | init (e : ElecPriceSensor) : e.num_retries = 0 → Reachable e
  | initDone (e : ElecPriceSensor) : Reachable e →
      Reachable { e with init_done := true }
  | stepPrices (fetchOk : Bool) (e : ElecPriceSensor) : Reachable e →
      Reachable (async_update_prices fetchOk e).1
  | stepUpdate (hasValidPrice fetchOk : Bool) (e : ElecPriceSensor) :
      Reachable e → Reachable (async_update hasValidPrice fetchOk e).1

end Pvpc

namespace HueRemote

/-- A lookup misses when no entry of the association list carries the
key: the embedding of dict.get returning None for an absent key. -/
theorem lookup_eq_none_of_not_key (l : List (Nat × String)) (k : Nat)
    (h : ∀ p ∈ l, p.1 ≠ k) : l.lookup k = none := by
  induction l with
  | nil => rfl
  | cons hd tl ih =>
    obtain ⟨a, b⟩ := hd
    have ha : a ≠ k := h (a, b) (List.mem_cons_self _ _)
    have hk : (k == a) = false := by
      exact beq_eq_false_iff_ne.mpr fun he => ha he.symm
    simp only [List.lookup, hk]
    exact ih fun p hp => h p (List.mem_cons_of_mem _ hp)

/-- C1: on a ZLL switch whose model id starts with RWL, buttonevent
code 1002 maps to the label 1_click_up, while the same code looked up
through the ZGP tap-switch path (non-FOH model) hits the tap table
whose code space is exactly 34, 16, 17, 18 and therefore returns the
no-data sentinel none. -/
theorem rwl_1002_click_up_and_tap_misses :
    zllSwitchState (mkButtonSensor "RWL021" 1002) = some "1_click_up" ∧
    zgpSwitchState (mkButtonSensor "ZGPSWITCH" 1002) = none ∧
    TAP_BUTTONS.map Prod.fst = [34, 16, 17, 18] ∧
    TAP_BUTTONS.lookup 1002 = none := by
  refine ⟨rfl, rfl, rfl, rfl⟩

/-- C2: whenever the event code is absent from the lookup table the
entity actually consults (RWL_BUTTONS for RWL-prefixed ZLL switches,
Z3_BUTTON for other ZLL switches, FOH_BUTTONS for FOH-prefixed ZGP
switches, TAP_BUTTONS for other ZGP switches, Z3_DIAL for the rotary),
the state property evaluates to the no-data sentinel none and the
device_state_attributes entry last_button_event evaluates to the
string No data; the lookups are total functions, so no exception can
arise. -/
theorem unmapped_code_yields_no_data :
    (∀ s : HueSensor, strStartsWith s.modelid "RWL" = true →
      (∀ p ∈ RWL_BUTTONS, p.1 ≠ s.buttonevent) →
      zllSwitchState s = none ∧
      (zllAttributes s).last_button_event = "No data") ∧
    (∀ s : HueSensor, strStartsWith s.modelid "RWL" = false →
      (∀ p ∈ Z3_BUTTON, p.1 ≠ s.buttonevent) →
      zllSwitchState s = none ∧
      (zllAttributes s).last_button_event = "No data") ∧
    (∀ s : HueSensor, strStartsWith s.modelid "FOH" = true →
      (∀ p ∈ FOH_BUTTONS, p.1 ≠ s.buttonevent) →
      zgpSwitchState s = none ∧
      (zgpAttributes s).last_button_event = "No data") ∧
    (∀ s : HueSensor, strStartsWith s.modelid "FOH" = false →
      (∀ p ∈ TAP_BUTTONS, p.1 ≠ s.buttonevent) →
      zgpSwitchState s = none ∧
      (zgpAttributes s).last_button_event = "No data") ∧
    (∀ s : HueSensor, (∀ p ∈ Z3_DIAL, p.1 ≠ s.rotaryevent) →
      rotaryState s = none ∧
      (rotaryAttributes s).last_button_event = "No data") := by
  have key : ∀ (o : Option String), o = none → orNoData o = "No data" := by
    intro o ho
    rw [ho]
    rfl
  refine ⟨fun s hpre hk => ?_, fun s hpre hk => ?_, fun s hpre hk => ?_,
    fun s hpre hk => ?_, fun s hk => ?_⟩
  · have hst : zllSwitchState s = none := by
      unfold zllSwitchState
      rw [if_pos hpre]
      exact lookup_eq_none_of_not_key _ _ hk
    exact ⟨hst, key _ hst⟩
  · have hst : zllSwitchState s = none := by
      unfold zllSwitchState
      rw [if_neg (by simp [hpre])]
      exact lookup_eq_none_of_not_key _ _ hk
    exact ⟨hst, key _ hst⟩
  · have hst : zgpSwitchState s = none := by
      unfold zgpSwitchState
      rw [if_pos hpre]
      exact lookup_eq_none_of_not_key _ _ hk
    exact ⟨hst, key _ hst⟩
  · have hst : zgpSwitchState s = none := by
      unfold zgpSwitchState
      rw [if_neg (by simp [hpre])]
      exact lookup_eq_none_of_not_key _ _ hk
    exact ⟨hst, key _ hst⟩
  · have hst : rotaryState s = none := lookup_eq_none_of_not_key _ _ hk
    refine ⟨hst, ?_⟩
    show orNoData (rotaryState s) = "No data"
    exact key _ hst

/-- Witness for C2 at the concrete unmapped code 999 on each entity
kind: every state and attribute degrades to the sentinel. -/
theorem unmapped_code_yields_no_data_witness :
    zllSwitchState (mkButtonSensor "RWL021" 999) = none ∧
    (zllAttributes (mkButtonSensor "RWL021" 999)).last_button_event =
      "No data" ∧
    zllSwitchState (mkButtonSensor "ROM001" 999) = none ∧
    zgpSwitchState (mkButtonSensor "FOHSWITCH" 999) = none ∧
    zgpSwitchState (mkButtonSensor "ZGPSWITCH" 999) = none ∧
    rotaryState { mkButtonSensor "Z3-1BRL" 0 with rotaryevent := 999 } =
      none ∧
    (rotaryAttributes
      { mkButtonSensor "Z3-1BRL" 0 with
        rotaryevent := 999 }).last_button_event = "No data" :=
  ⟨(unmapped_code_yields_no_data.1 (mkButtonSensor "RWL021" 999) rfl
      (by decide)).1,
   (unmapped_code_yields_no_data.1 (mkButtonSensor "RWL021" 999) rfl
      (by decide)).2,
   (unmapped_code_yields_no_data.2.1 (mkButtonSensor "ROM001" 999) rfl
      (by decide)).1,
   (unmapped_code_yields_no_data.2.2.1 (mkButtonSensor "FOHSWITCH" 999) rfl
      (by decide)).1,
   (unmapped_code_yields_no_data.2.2.2.1 (mkButtonSensor "ZGPSWITCH" 999) rfl
      (by decide)).1,
   (unmapped_code_yields_no_data.2.2.2.2
      { mkButtonSensor "Z3-1BRL" 0 with rotaryevent := 999 } (by decide)).1,
   (unmapped_code_yields_no_data.2.2.2.2
      { mkButtonSensor "Z3-1BRL" 0 with rotaryevent := 999 } (by decide)).2⟩

/-- C3 counterexample: the ZLL switch entity for model ROM001 (the Hue
Smart button, a ZLL switch without the RWL prefix) does not map
buttonevent 1000 through the 16-entry RWL table: the code routes it
through the 4-entry Z3_BUTTON table instead, giving initial_press
where the RWL table holds 1_click. -/
theorem zll_state_not_always_rwl_table :
    zllSwitchState (mkButtonSensor "ROM001" 1000) = some "initial_press" ∧
    RWL_BUTTONS.lookup (mkButtonSensor "ROM001" 1000).buttonevent =
      some "1_click" ∧
    zllSwitchState (mkButtonSensor "ROM001" 1000) ≠
      RWL_BUTTONS.lookup (mkButtonSensor "ROM001" 1000).buttonevent := by
  refine ⟨rfl, rfl, ?_⟩
  decide

/-- C3 amended: only ZLL switch entities whose model id starts with
RWL map buttonevent through the 16-entry RWL_BUTTONS table, whose
labels are exactly the combinations of a button number 1-4 with a
phase click, hold, click_up or hold_up; every other ZLL switch model
maps through the 4-entry Z3_BUTTON table with labels initial_press,
repeat, short_release, long_release. -/
theorem zll_state_table_by_model_prefix (s : HueSensor) :
    (strStartsWith s.modelid "RWL" = true →
      zllSwitchState s = RWL_BUTTONS.lookup s.buttonevent) ∧
    (strStartsWith s.modelid "RWL" = false →
      zllSwitchState s = Z3_BUTTON.lookup s.buttonevent) ∧
    RWL_BUTTONS.length = 16 ∧
    RWL_BUTTONS.map Prod.snd =
      ["1_click", "2_click", "3_click", "4_click",
       "1_hold", "2_hold", "3_hold", "4_hold",
       "1_click_up", "2_click_up", "3_click_up", "4_click_up",
       "1_hold_up", "2_hold_up", "3_hold_up", "4_hold_up"] ∧
    Z3_BUTTON.map Prod.snd =
      ["initial_press", "repeat", "short_release", "long_release"] := by
  refine ⟨fun h => ?_, fun h => ?_, rfl, rfl, rfl⟩
  · simp [zllSwitchState, h]
  · simp [zllSwitchState, h]

/-- C4: rotaryevent 1 maps to begin, 2 to end, anything else to the
no-data sentinel, and the rotary entity's attributes expose the
absolute rotation amount and the state lastupdated timestamp straight
from the vendor sensor payload (the timestamp split on the letter T
into date and time parts). -/
theorem rotary_state_and_attributes (s : HueSensor) :
    (s.rotaryevent = 1 → rotaryState s = some "begin") ∧
    (s.rotaryevent = 2 → rotaryState s = some "end") ∧
    (s.rotaryevent ≠ 1 → s.rotaryevent ≠ 2 → rotaryState s = none) ∧
    (rotaryAttributes s).dial_position = s.expectedrotation ∧
    (rotaryAttributes s).last_updated = s.stateLastupdated.splitOn "T" := by
  refine ⟨fun h => ?_, fun h => ?_, fun h1 h2 => ?_, rfl, rfl⟩
  · simp [rotaryState, Z3_DIAL, List.lookup, h]
  · simp [rotaryState, Z3_DIAL, List.lookup, h]
  · have e1 : (s.rotaryevent == 1) = false := beq_eq_false_iff_ne.mpr h1
    have e2 : (s.rotaryevent == 2) = false := beq_eq_false_iff_ne.mpr h2
    simp [rotaryState, Z3_DIAL, List.lookup, e1, e2]

/-- C10: turn_on and turn_off have empty bodies, so they change
nothing: the sensor is returned as is, and state, icon and
device_state_attributes are identical before and after any call with
any keyword arguments. -/
theorem turn_on_off_noop (s : HueSensor) (kwargs : List (String × String)) :
    turn_on s kwargs = s ∧
    turn_off s kwargs = s ∧
    zllSwitchState (turn_on s kwargs) = zllSwitchState s ∧
    zgpSwitchState (turn_on s kwargs) = zgpSwitchState s ∧
    rotaryState (turn_off s kwargs) = rotaryState s ∧
    icon (turn_on s kwargs) = icon s ∧
    icon (turn_off s kwargs) = icon s ∧
    zllAttributes (turn_on s kwargs) = zllAttributes s ∧
    zgpAttributes (turn_off s kwargs) = zgpAttributes s ∧
    rotaryAttributes (turn_on s kwargs) = rotaryAttributes s :=
  ⟨rfl, rfl, rfl, rfl, rfl, rfl, rfl, rfl, rfl, rfl⟩

end HueRemote

namespace Pvpc

/-- The retry-counter invariant: the counter never passes 3, and it
can only sit at 3 with the source already marked unavailable. -/
def Inv (e : ElecPriceSensor) : Prop :=
  e.num_retries ≤ 3 ∧ (e.pvpc.source_available = true → e.num_retries ≤ 2)

/-- async_update_prices preserves the retry-counter invariant. -/
theorem inv_update_prices (fetchOk : Bool) (e : ElecPriceSensor)
    (h : Inv e) : Inv (async_update_prices fetchOk e).1 := by
  obtain ⟨h3, h2⟩ := h
  unfold Inv async_update_prices
  split
  next hcond =>
    have hs : e.pvpc.source_available = true := by
      rw [Bool.and_eq_true] at hcond
      exact hcond.2
    have hr : e.num_retries ≤ 2 := h2 hs
    split
    next hgt =>
      refine ⟨?_, fun ht => ?_⟩
      · show e.num_retries + 1 ≤ 3
        omega
      · exact absurd (show false = true from ht) (by simp)
    next hgt =>
      refine ⟨?_, fun _ => ?_⟩
      · show e.num_retries + 1 ≤ 3
        omega
      · show e.num_retries + 1 ≤ 2
        omega
  next hcond =>
    split
    next => exact ⟨h3, h2⟩
    next =>
      split
      next =>
        exact ⟨show (0 : Nat) ≤ 3 by omega, fun _ => show (0 : Nat) ≤ 2 by omega⟩
      next =>
        exact ⟨show (0 : Nat) ≤ 3 by omega, fun _ => show (0 : Nat) ≤ 2 by omega⟩

/-- async_update preserves the retry-counter invariant. -/
theorem inv_update (hasValidPrice fetchOk : Bool) (e : ElecPriceSensor)
    (h : Inv e) : Inv (async_update hasValidPrice fetchOk e).1 := by
  unfold Inv async_update
  split
  next => exact h
  next =>
    split
    next => exact ⟨h.1, h.2⟩
    next => exact inv_update_prices fetchOk _ ⟨h.1, h.2⟩

/-- Every reachable entity state satisfies the retry-counter
invariant. -/
theorem reachable_inv (e : ElecPriceSensor) (h : Reachable e) : Inv e := by
  induction h with
  | init e h0 => exact ⟨by omega, fun _ => by omega⟩
  | initDone e _ ih => exact ⟨ih.1, ih.2⟩
  | stepPrices fetchOk e _ ih => exact inv_update_prices fetchOk e ih
  | stepUpdate hasValidPrice fetchOk e _ ih =>
      exact inv_update hasValidPrice fetchOk e ih

/-- One empty fetch while the source is available and the counter
stays at 2 or below: increment and schedule one retry. -/
theorem step_empty_low (e : ElecPriceSensor)
    (hsrc : e.pvpc.source_available = true)
    (hle : e.num_retries + 1 ≤ 2) :
    async_update_prices false e =
      ({ e with num_retries := e.num_retries + 1 },
       [Action.vendorFetch, Action.retryPricesIn (3 * e.pvpc.timeout)]) := by
  unfold async_update_prices
  rw [if_pos (by simp [hsrc]), if_neg (by omega)]

/-- One empty fetch while the source is available pushing the counter
above 2: mark the source unavailable and stop. -/
theorem step_empty_giveup (e : ElecPriceSensor)
    (hsrc : e.pvpc.source_available = true)
    (hgt : e.num_retries + 1 > 2) :
    async_update_prices false e =
      ({ e with num_retries := e.num_retries + 1,
                pvpc := { e.pvpc with source_available := false } },
       [Action.vendorFetch]) := by
  unfold async_update_prices
  rw [if_pos (by simp [hsrc]), if_pos hgt]

/-- One empty fetch while the source is already unavailable: only the
vendor fetch happens and nothing changes. -/
theorem step_empty_unavailable (e : ElecPriceSensor)
    (hsrc : e.pvpc.source_available = false) :
    async_update_prices false e = (e, [Action.vendorFetch]) := by
  unfold async_update_prices
  rw [if_neg (by simp [hsrc]), if_pos (by simp)]

/-- One successful fetch with the source available: reset the counter
only. -/
theorem step_success_available (e : ElecPriceSensor)
    (hsrc : e.pvpc.source_available = true) :
    async_update_prices true e =
      ({ e with num_retries := 0 }, [Action.vendorFetch]) := by
  unfold async_update_prices
  rw [if_neg (by simp), if_neg (by simp), if_neg (by simp [hsrc])]

/-- One successful fetch while the source had been unavailable: reset
the counter, recover the source and force a full state refresh. -/
theorem step_success_recover (e : ElecPriceSensor)
    (hsrc : e.pvpc.source_available = false) :
    async_update_prices true e =
      ({ e with num_retries := 0,
                pvpc := { e.pvpc with source_available := true } },
       [Action.vendorFetch, Action.scheduleHaState true]) := by
  unfold async_update_prices
  rw [if_neg (by simp), if_neg (by simp), if_pos (by simp [hsrc])]

/-- After initialization, an async_update that finds a valid price for
the current hour only refreshes the displayed state. -/
theorem update_valid (fetchOk : Bool) (e : ElecPriceSensor)
    (hinit : e.init_done = true) :
    async_update true fetchOk e =
      ({ e with pvpc := { e.pvpc with state_available := true } },
       [Action.updateHaState]) := by
  unfold async_update
  rw [if_neg (by simp [hinit]), if_pos rfl]

/-- After initialization, an async_update that finds no valid price
clears the displayed availability, schedules a state update and a
timeout-delayed update when the source is available, and runs the
price fetch inline. -/
theorem update_novalid (fetchOk : Bool) (e : ElecPriceSensor)
    (hinit : e.init_done = true) :
    async_update false fetchOk e =
      ((async_update_prices fetchOk
          { e with pvpc := { e.pvpc with state_available := false } }).1,
       [Action.scheduleHaState false] ++
         (if e.pvpc.source_available then
           [Action.delayedUpdateIn e.pvpc.timeout] else []) ++
         (async_update_prices fetchOk
           { e with pvpc := { e.pvpc with state_available := false } }).2) := by
  unfold async_update
  rw [if_neg (by simp [hinit]), if_neg (by simp)]

/-- async_update_prices never touches the displayed availability
flag. -/
theorem prices_keep_state_available (fetchOk : Bool) (e : ElecPriceSensor) :
    (async_update_prices fetchOk e).1.pvpc.state_available =
      e.pvpc.state_available := by
  unfold async_update_prices
  split
  · split <;> rfl
  · split
    · rfl
    · split <;> rfl

/-- Every run of async_update_prices performs exactly one vendor
fetch. -/
theorem vendor_fetch_in_prices (fetchOk : Bool) (e : ElecPriceSensor) :
    Action.vendorFetch ∈ (async_update_prices fetchOk e).2 := by
  unfold async_update_prices
  split
  · split <;> simp
  · split
    · simp
    · split <;> simp

/-- A concrete healthy sensor for the witnesses: counter 0, initialized,
everything available, timeout 5 seconds. -/
def sampleSensor : ElecPriceSensor :=
  { num_retries := 0, init_done := true,
    pvpc := { state_available := true, source_available := true,
              timeout := 5, state := none } }

/-- A concrete given-up sensor for the witnesses: counter 3, source and
displayed state unavailable. -/
def sampleUnavailable : ElecPriceSensor :=
  { num_retries := 3, init_done := true,
    pvpc := { state_available := false, source_available := false,
              timeout := 5, state := none } }

/-- A concrete sensor still inside async_added_to_hass: init_done is
false. -/
def sampleUninit : ElecPriceSensor :=
  { num_retries := 0, init_done := false,
    pvpc := { state_available := true, source_available := true,
              timeout := 5, state := none } }

/-- C5: an empty price-fetch tick with the source available and the
incremented counter still at most 2 increments the retry counter by
exactly one, leaves the source available, and schedules exactly one
one-shot retry after exactly 3 times the configured timeout. -/
theorem empty_fetch_schedules_single_retry (e : ElecPriceSensor)
    (hsrc : e.pvpc.source_available = true)
    (hcnt : e.num_retries + 1 ≤ 2) :
    (async_update_prices false e).1.num_retries = e.num_retries + 1 ∧
    (async_update_prices false e).1.pvpc.source_available = true ∧
    (async_update_prices false e).2.filter Action.isRetry =
      [Action.retryPricesIn (3 * e.pvpc.timeout)] := by
  rw [step_empty_low e hsrc hcnt]
  exact ⟨rfl, hsrc, rfl⟩

/-- Witness for C5 at the concrete healthy sensor. -/
theorem empty_fetch_schedules_single_retry_witness :
    (async_update_prices false sampleSensor).1.num_retries =
      sampleSensor.num_retries + 1 ∧
    (async_update_prices false sampleSensor).1.pvpc.source_available =
      true ∧
    (async_update_prices false sampleSensor).2.filter Action.isRetry =
      [Action.retryPricesIn (3 * sampleSensor.pvpc.timeout)] :=
  empty_fetch_schedules_single_retry sampleSensor rfl (by decide)

/-- C6: from counter 0 with the source available, three consecutive
empty fetches drive the counter to 3, mark the source unavailable and
schedule no retry on the third step; any further empty fetch while the
source is unavailable changes nothing and schedules nothing; and in
every reachable entity state the retry counter is at most 3. -/
theorem three_empty_fetches_give_up (e0 e1 e2 : ElecPriceSensor)
    (h0 : e0.num_retries = 0)
    (hsrc : e0.pvpc.source_available = true)
    (s1 : e1 = (async_update_prices false e0).1)
    (s2 : e2 = (async_update_prices false e1).1) :
    (async_update_prices false e2).1.num_retries = 3 ∧
    (async_update_prices false e2).1.pvpc.source_available = false ∧
    (async_update_prices false e2).2.filter Action.isRetry = [] ∧
    (∀ e : ElecPriceSensor, e.pvpc.source_available = false →
      async_update_prices false e = (e, [Action.vendorFetch])) ∧
    (∀ e : ElecPriceSensor, Reachable e → e.num_retries ≤ 3) := by
  have st1 := step_empty_low e0 hsrc (by omega)
  have he1 : e1 = { e0 with num_retries := e0.num_retries + 1 } := by
    rw [s1, st1]
  have he1n : e1.num_retries = 1 := by
    rw [he1]
    show e0.num_retries + 1 = 1
    omega
  have he1s : e1.pvpc.source_available = true := by
    rw [he1]
    exact hsrc
  have st2 := step_empty_low e1 he1s (by omega)
  have he2 : e2 = { e1 with num_retries := e1.num_retries + 1 } := by
    rw [s2, st2]
  have he2n : e2.num_retries = 2 := by
    rw [he2]
    show e1.num_retries + 1 = 2
    omega
  have he2s : e2.pvpc.source_available = true := by
    rw [he2]
    exact he1s
  have st3 := step_empty_giveup e2 he2s (by omega)
  refine ⟨?_, ?_, ?_, fun e hs => step_empty_unavailable e hs,
    fun e hr => (reachable_inv e hr).1⟩
  · rw [st3]
    show e2.num_retries + 1 = 3
    omega
  · rw [st3]
  · rw [st3]
    rfl

/-- Witness for C6: the trace of three empty fetches from the concrete
healthy sensor. -/
theorem three_empty_fetches_give_up_witness :
    (async_update_prices false
      (async_update_prices false
        (async_update_prices false sampleSensor).1).1).1.num_retries = 3 ∧
    (async_update_prices false
      (async_update_prices false
        (async_update_prices false
          sampleSensor).1).1).1.pvpc.source_available = false ∧
    (async_update_prices false
      (async_update_prices false
        (async_update_prices false sampleSensor).1).1).2.filter
      Action.isRetry = [] ∧
    (∀ e : ElecPriceSensor, e.pvpc.source_available = false →
      async_update_prices false e = (e, [Action.vendorFetch])) ∧
    (∀ e : ElecPriceSensor, Reachable e → e.num_retries ≤ 3) :=
  three_empty_fetches_give_up sampleSensor
    (async_update_prices false sampleSensor).1
    (async_update_prices false (async_update_prices false sampleSensor).1).1
    rfl rfl rfl rfl

/-- C7: a non-empty fetch resets the retry counter to 0; when the
source had been unavailable it recovers the source and schedules a
forced full state refresh, and the forced refresh that then finds a
valid price makes the entity's available property true again. -/
theorem success_resets_counter_and_recovers (e : ElecPriceSensor)
    (hinit : e.init_done = true) :
    (async_update_prices true e).1.num_retries = 0 ∧
    (e.pvpc.source_available = false →
      (async_update_prices true e).1.pvpc.source_available = true ∧
      Action.scheduleHaState true ∈ (async_update_prices true e).2) ∧
    (∀ fetchOk2 : Bool,
      available
        (async_update true fetchOk2 (async_update_prices true e).1).1 =
        true) := by
  cases hs : e.pvpc.source_available with
  | true =>
    have st := step_success_available e hs
    refine ⟨?_, fun hf => ?_, fun ok => ?_⟩
    · rw [st]
    · exact Bool.noConfusion hf
    · rw [update_valid ok _ (by rw [st]; exact hinit)]
      rfl
  | false =>
    have st := step_success_recover e hs
    refine ⟨?_, fun _ => ⟨?_, ?_⟩, fun ok => ?_⟩
    · rw [st]
    · rw [st]
    · rw [st]
      simp
    · rw [update_valid ok _ (by rw [st]; exact hinit)]
      rfl

/-- Witness for C7 at the concrete given-up sensor. -/
theorem success_resets_counter_and_recovers_witness :
    (async_update_prices true sampleUnavailable).1.num_retries = 0 ∧
    (sampleUnavailable.pvpc.source_available = false →
      (async_update_prices
        true sampleUnavailable).1.pvpc.source_available = true ∧
      Action.scheduleHaState true ∈
        (async_update_prices true sampleUnavailable).2) ∧
    (∀ fetchOk2 : Bool,
      available
        (async_update true fetchOk2
          (async_update_prices true sampleUnavailable).1).1 = true) :=
  success_resets_counter_and_recovers sampleUnavailable rfl

/-- C8: on the hourly refresh tick after initialization, finding no
valid price clears the displayed availability, schedules a state
update, schedules a timeout-delayed update when the source is
available, and triggers a price fetch; finding a valid price only
refreshes the displayed state, with no fetch and no change to the
retry counter or the source flag. -/
theorem hourly_refresh_behaviour (e : ElecPriceSensor)
    (hinit : e.init_done = true) (fetchOk : Bool) :
    ((async_update false fetchOk e).1.pvpc.state_available = false ∧
     Action.scheduleHaState false ∈ (async_update false fetchOk e).2 ∧
     Action.vendorFetch ∈ (async_update false fetchOk e).2 ∧
     (e.pvpc.source_available = true →
       Action.delayedUpdateIn e.pvpc.timeout ∈
         (async_update false fetchOk e).2)) ∧
    ((async_update true fetchOk e).2 = [Action.updateHaState] ∧
     Action.vendorFetch ∉ (async_update true fetchOk e).2 ∧
     (async_update true fetchOk e).1.num_retries = e.num_retries ∧
     (async_update true fetchOk e).1.pvpc.source_available =
       e.pvpc.source_available) := by
  constructor
  · rw [update_novalid fetchOk e hinit]
    refine ⟨?_, ?_, ?_, fun hs => ?_⟩
    · rw [prices_keep_state_available]
    · simp
    · simp [vendor_fetch_in_prices]
    · simp [hs]
  · rw [update_valid fetchOk e hinit]
    refine ⟨rfl, ?_, rfl, rfl⟩
    simp

/-- Witness for C8 at the concrete healthy sensor with an empty nested
fetch. -/
theorem hourly_refresh_behaviour_witness :
    ((async_update false false sampleSensor).1.pvpc.state_available =
      false ∧
     Action.scheduleHaState false ∈
       (async_update false false sampleSensor).2 ∧
     Action.vendorFetch ∈ (async_update false false sampleSensor).2 ∧
     (sampleSensor.pvpc.source_available = true →
       Action.delayedUpdateIn sampleSensor.pvpc.timeout ∈
         (async_update false false sampleSensor).2)) ∧
    ((async_update true false sampleSensor).2 = [Action.updateHaState] ∧
     Action.vendorFetch ∉ (async_update true false sampleSensor).2 ∧
     (async_update true false sampleSensor).1.num_retries =
       sampleSensor.num_retries ∧
     (async_update true false sampleSensor).1.pvpc.source_available =
       sampleSensor.pvpc.source_available) :=
  hourly_refresh_behaviour sampleSensor rfl false

/-- C9: before async_added_to_hass finishes (init_done still false),
async_update returns at once: the entity and its price-data object are
returned unchanged field for field and no action is scheduled. -/
theorem no_effect_before_init (e : ElecPriceSensor)
    (h : e.init_done = false) (hasValidPrice fetchOk : Bool) :
    async_update hasValidPrice fetchOk e = (e, []) := by
  unfold async_update
  rw [if_pos (by simp [h])]

/-- Witness for C9 at the concrete uninitialized sensor. -/
theorem no_effect_before_init_witness :
    async_update true true sampleUninit = (sampleUninit, []) :=
  no_effect_before_init sampleUninit rfl true true

end Pvpc
